import Mathlib

/-!
Shallow embedding of `src/watchdog/observers/inotify_observer.py` and the
theorems checking the specification's claims against it.

The embedding translates, from the source:
  - the `_ProcessEventDispatcher` event translator (`process_IN_CREATE`,
    `process_IN_DELETE`, `process_IN_CLOSE_WRITE`, `process_IN_ATTRIB`,
    `process_IN_MOVED_TO`), as pure functions returning the list of
    semantic events dispatched to the rule's handler, in dispatch order;
  - the `InotifyObserver` state (`WatchManager` watches, notifier set,
    `name → _Rule` registry) and its methods `schedule`, `unschedule`
    and `on_stopping`.

External collaborators are modelled as follows: path normalization
(`absolute_path`, `real_absolute_path`, from `watchdog.utils`, out of
scope per the spec) is the identity on already-canonical paths; the
pyinotify `ProcessEvent` dispatch mechanism routes a raw notification to
the `process_<KIND>` method of its kind, and kinds with no overridden
method fall through to the no-op default handler; `WatchManager.add_watch`
returns a fresh dict of watch descriptors for the given path and
`rm_watch` removes the given descriptors; a `ThreadedNotifier` is a
worker with a running flag, started by `start()` and stopped by `stop()`.
-/

namespace Watchdog

/-- Semantic filesystem events from `watchdog.events`: `{Created, Deleted,
Modified} × {File, Dir}` carry one path, `Moved × {File, Dir}` carry a
source and a destination path. -/
inductive FileSystemEvent where
  | dirCreated (path : String)
  | fileCreated (path : String)
  | dirDeleted (path : String)
  | fileDeleted (path : String)
  | dirModified (path : String)
  | fileModified (path : String)
  | dirMoved (src_path : String) (dest_path : String)
  | fileMoved (src_path : String) (dest_path : String)
  deriving DecidableEq

/-- Kinds of raw inotify notifications handled (or not) by
`_ProcessEventDispatcher`. -/
inductive RawKind where
  | in_create
  | in_delete
  | in_close_write
  | in_attrib
  | in_moved_to
  | in_moved_from
  deriving DecidableEq

/-- One raw pyinotify notification record. For an `in_moved_to` record
produced by cookie pairing, `pathname` is the destination and
`src_pathname` the paired source; for other kinds `src_pathname` is
unused. `dir` mirrors `event.dir`. -/
structure RawEvent where
  kind : RawKind
  pathname : String
  src_pathname : String
  dir : Bool
  deriving DecidableEq

/-- Path normalization collaborator (`watchdog.utils.absolute_path`),
out of scope per the spec; paths are taken already canonical, so it is
the identity. -/
def absolute_path (p : String) : String := p

/-- Path normalization collaborator (`watchdog.utils.real_absolute_path`),
out of scope per the spec; modelled as the identity likewise. -/
def real_absolute_path (p : String) : String := p

/-- Modelled from the spec: `get_moved_events_for` (from `watchdog.events`,
which is not under `src/`). Per spec section 4.2, given the old and new
directory paths it produces one `Moved(File|Dir)` event for every entry
present under the old directory immediately before the move, with each
entry's path rewritten by substituting the old-directory prefix with the
new one. The pre-move snapshot of descendant paths (full path together
with its directory flag) is supplied as an explicit argument, since the
raw event stream does not carry it. The call site always passes
`recursive := true`. -/
def get_moved_events_for (src_path : String) (dest_path : String)
    (recursive : Bool) (descendants : List (String × Bool)) :
    List FileSystemEvent :=
  descendants.map (fun d =>
    let new_path : String := dest_path ++ (d.1.drop src_path.length)
    if d.2 then FileSystemEvent.dirMoved d.1 new_path
    else FileSystemEvent.fileMoved d.1 new_path)

/-- Translation of `_ProcessEventDispatcher.process_IN_CREATE`. -/
def process_IN_CREATE (ev : RawEvent) : List FileSystemEvent :=
  let src_path := absolute_path ev.pathname
  if ev.dir then [FileSystemEvent.dirCreated src_path]
  else [FileSystemEvent.fileCreated src_path]

/-- Translation of `_ProcessEventDispatcher.process_IN_DELETE`. -/
def process_IN_DELETE (ev : RawEvent) : List FileSystemEvent :=
  let src_path := absolute_path ev.pathname
  if ev.dir then [FileSystemEvent.dirDeleted src_path]
  else [FileSystemEvent.fileDeleted src_path]

/-- Translation of `_ProcessEventDispatcher.process_IN_CLOSE_WRITE`. -/
def process_IN_CLOSE_WRITE (ev : RawEvent) : List FileSystemEvent :=
  let src_path := absolute_path ev.pathname
  if ev.dir then [FileSystemEvent.dirModified src_path]
  else [FileSystemEvent.fileModified src_path]

/-- Translation of `_ProcessEventDispatcher.process_IN_ATTRIB`, which
delegates to `process_IN_CLOSE_WRITE`. -/
def process_IN_ATTRIB (ev : RawEvent) : List FileSystemEvent :=
  process_IN_CLOSE_WRITE ev

/-- Translation of `_ProcessEventDispatcher.process_IN_MOVED_TO`.
`is_recursive` mirrors `self.is_recursive`; `descendants` is the pre-move
descendant snapshot consumed by the spec-modelled `get_moved_events_for`. -/
def process_IN_MOVED_TO (is_recursive : Bool)
    (descendants : List (String × Bool)) (ev : RawEvent) :
    List FileSystemEvent :=
  let src_path := absolute_path ev.src_pathname
  let dest_path := absolute_path ev.pathname
  if ev.dir then
    (if is_recursive then
      get_moved_events_for src_path dest_path true descendants
    else []) ++ [FileSystemEvent.dirMoved src_path dest_path]
  else [FileSystemEvent.fileMoved src_path dest_path]

/-- Events dispatched by `_ProcessEventDispatcher` for one raw
notification, in dispatch order. Routing follows the external
`ProcessEvent` contract: a kind whose `process_<KIND>` method is not
defined on the subclass falls through to the no-op default, so
`in_moved_from` (no `process_IN_MOVED_FROM` exists in the source)
dispatches nothing. -/
def dispatch_event (is_recursive : Bool)
    (descendants : List (String × Bool)) (ev : RawEvent) :
    List FileSystemEvent :=
  match ev.kind with
  | RawKind.in_create => process_IN_CREATE ev
  | RawKind.in_delete => process_IN_DELETE ev
  | RawKind.in_close_write => process_IN_CLOSE_WRITE ev
  | RawKind.in_attrib => process_IN_ATTRIB ev
  | RawKind.in_moved_to => process_IN_MOVED_TO is_recursive descendants ev
  | RawKind.in_moved_from => []

/-- State of the pyinotify `WatchManager` collaborator: the set of active
kernel watch descriptors together with a fresh-descriptor counter. -/
structure WatchManagerState where
  next_wd : Nat
  watches : List Nat
  deriving DecidableEq

/-- Collaborator contract of `WatchManager.add_watch(path, ...)`: creates
a fresh kernel watch for the path and returns the updated manager together
with the resulting dict of descriptors (`path → wd`), as the source's
`self._wm.add_watch(path, ALL_EVENTS, rec=recursive, auto_add=True)`. -/
def WatchManagerState.add_watch (wm : WatchManagerState) (path : String) :
    WatchManagerState × List (String × Nat) :=
  ({ next_wd := wm.next_wd + 1, watches := wm.watches ++ [wm.next_wd] },
   [(path, wm.next_wd)])

/-- Collaborator contract of `WatchManager.rm_watch(wds)`: removes the
given kernel watch descriptors. -/
def WatchManagerState.rm_watch (wm : WatchManagerState) (wds : List Nat) :
    WatchManagerState :=
  { wm with watches := wm.watches.filter (fun w => !(wds.contains w)) }

/-- A `ThreadedNotifier` (the per-rule worker): identity, the handler and
recursive flag its `_ProcessEventDispatcher` was built with, and whether
its thread is running. -/
structure Notifier where
  id : Nat
  event_handler : Nat
  recursive : Bool
  running : Bool
  deriving DecidableEq

/-- The source's `_Rule`: name, the notifier's identity, and the watch
descriptors stored for the rule. -/
structure Rule where
  name : String
  notifier : Nat
  descriptors : List (String × Nat)
  deriving DecidableEq

/-- State of an `InotifyObserver`: the daemon's stopped flag, a fresh
counter for notifier identities, the `WatchManager`, `self._notifiers`
and `self._name_to_rule`. The registry is an association list read
through `List.lookup`; no theorem relies on its iteration order. -/
structure InotifyObserver where
  stopped : Bool
  next_notifier : Nat
  wm : WatchManagerState
  notifiers : List Notifier
  name_to_rule : List (String × Rule)
  deriving DecidableEq

/-- Observer state produced by `InotifyObserver.__init__`. -/
def InotifyObserver.init : InotifyObserver :=
  { stopped := false
    next_notifier := 0
    wm := { next_wd := 0, watches := [] }
    notifiers := []
    name_to_rule := [] }

/-- Python dict update `m[k] = v` viewed as a finite map: the binding for
`k` is replaced by `v`, all other bindings are kept. (Iteration order is
not relied upon by any theorem.) -/
def dictInsert (m : List (String × Rule)) (k : String) (v : Rule) :
    List (String × Rule) :=
  (k, v) :: m.filter (fun kv => !(kv.1 == k))

/-- A Python value passed inside the `paths` argument: a string, or some
non-string value (failing the `isinstance(path, basestring)` check). -/
inductive PyVal where
  | str (s : String)
  | nonstr (tag : Nat)
  deriving DecidableEq

/-- Whether a value fails the `isinstance(path, basestring)` check. -/
def PyVal.isNonstr : PyVal → Bool
  | PyVal.str _ => false
  | PyVal.nonstr _ => true

/-- The `paths` argument of `schedule`: `None` (the default), a single
string, or a list of values. -/
inductive PathsArg where
  | pyNone
  | str (s : String)
  | list (l : List PyVal)
  deriving DecidableEq

/-- Python truthiness of `not paths`: `None`, the empty string and the
empty list are falsy. -/
def PathsArg.isFalsy : PathsArg → Bool
  | PathsArg.pyNone => true
  | PathsArg.str s => s == ""
  | PathsArg.list l => l.isEmpty

/-- The list the source's loop `for path in paths` iterates over, after
the `isinstance(paths, basestring)` wrapping step (`pyNone` never reaches
the loop: it is falsy and rejected before). -/
def PathsArg.toList : PathsArg → List PyVal
  | PathsArg.pyNone => []
  | PathsArg.str s => [PyVal.str s]
  | PathsArg.list l => l

/-- The source's `for path in paths` loop body: for each string path,
`real_absolute_path` then `add_watch`, rebinding the `descriptors`
variable each iteration; a non-string path raises `TypeError`, leaving
the watches added so far in place. Returns the watch-manager state, the
final value of the `descriptors` variable, and the raised error if any. -/
def add_watch_loop (wm : WatchManagerState) (paths : List PyVal)
    (descriptors : Option (List (String × Nat))) :
    WatchManagerState × Option (List (String × Nat)) × Option Unit :=
  match paths with
  | [] => (wm, descriptors, Option.none)
  | PyVal.nonstr _ :: _ => (wm, descriptors, Option.some ())
  | PyVal.str s :: rest =>
      let r := wm.add_watch (real_absolute_path s)
      add_watch_loop r.1 rest (Option.some r.2)

/-- Errors raised by the observer's methods: `ValueError` from the empty
`paths` check, `TypeError` from the non-string path check, `KeyError`
from a registry lookup of an unknown name. -/
inductive PyError where
  | valueError
  | typeError
  | keyError
  deriving DecidableEq

/-- Translation of `InotifyObserver.schedule`. Mirrors the source line by
line: reject falsy `paths` with `ValueError`; wrap a lone string; build
the dispatcher and notifier and add the notifier to `self._notifiers`;
loop over the paths adding one kernel watch each (a non-string path
raises `TypeError` there, after the notifier was added and earlier
watches were created); on success store `_Rule(name, notifier,
descriptors)` — the `descriptors` of the *last* path only, as the loop
rebinds the variable — under `name`, then start the notifier. Returns
the resulting state together with the raised error, if any. -/
def InotifyObserver.schedule (obs : InotifyObserver) (name : String)
    (event_handler : Nat) (paths : PathsArg) (recursive : Bool) :
    InotifyObserver × Option PyError :=
  if paths.isFalsy then (obs, Option.some PyError.valueError) else
  let notifier : Notifier :=
    { id := obs.next_notifier
      event_handler := event_handler
      recursive := recursive
      running := false }
  let obs1 : InotifyObserver :=
    { obs with
        next_notifier := obs.next_notifier + 1
        notifiers := obs.notifiers ++ [notifier] }
  let res := add_watch_loop obs1.wm paths.toList Option.none
  if res.2.2.isSome then
    ({ obs1 with wm := res.1 }, Option.some PyError.typeError)
  else
    ({ obs1 with
         wm := res.1
         name_to_rule := dictInsert obs1.name_to_rule name
           { name := name
             notifier := notifier.id
             descriptors := res.2.1.getD [] }
         notifiers := obs1.notifiers.map (fun n =>
           if n.id = notifier.id then { n with running := true } else n) },
     Option.none)

/-- The source's `for name in names` loop of `unschedule`: looks each
name up (an unknown name raises `KeyError`, leaving earlier removals in
place) and removes the rule's watch descriptors; the registry entry and
the notifier are left untouched. -/
def unschedule_loop (obs : InotifyObserver) (names : List String) :
    InotifyObserver × Option PyError :=
  match names with
  | [] => (obs, Option.none)
  | n :: rest =>
      match obs.name_to_rule.lookup n with
      | Option.none => (obs, Option.some PyError.keyError)
      | Option.some rule =>
          unschedule_loop
            { obs with
                wm := obs.wm.rm_watch (rule.descriptors.map Prod.snd) }
            rest

/-- Translation of `InotifyObserver.unschedule(*names)`: with no names,
removes every rule's watch descriptors; otherwise processes the given
names in order. In both branches the registry entries and the notifiers
are left untouched. -/
def InotifyObserver.unschedule (obs : InotifyObserver)
    (names : List String) : InotifyObserver × Option PyError :=
  if names.isEmpty then
    (obs.name_to_rule.foldl
      (fun o kv =>
        { o with wm := o.wm.rm_watch (kv.2.descriptors.map Prod.snd) })
      obs,
     Option.none)
  else unschedule_loop obs names

/-- Translation of `InotifyObserver.on_stopping`: stops every notifier in
`self._notifiers`; the registry and the watch manager are untouched. -/
def InotifyObserver.on_stopping (obs : InotifyObserver) : InotifyObserver :=
  { obs with
      notifiers := obs.notifiers.map (fun n => { n with running := false }) }

/-- Modelled from the spec: `DaemonThread.stop` (from `watchdog.utils`,
which is not under `src/`) transitions the daemon out of the running
state and invokes the `on_stopping` hook. -/
def InotifyObserver.stop (obs : InotifyObserver) : InotifyObserver :=
  InotifyObserver.on_stopping { obs with stopped := true }

/-- Observer state after one successful `schedule("r", handler, "/a")` on
a fresh observer; a concrete state used by witnesses and counterexamples. -/
def sampleObs : InotifyObserver :=
  (InotifyObserver.schedule InotifyObserver.init "r" 0
    (PathsArg.str "/a") false).1

/-- The watch-adding loop raises on a list containing a non-string. -/
theorem add_watch_loop_err_of_nonstr (l : List PyVal)
    (wm : WatchManagerState) (d : Option (List (String × Nat)))
    (h : l.any PyVal.isNonstr = true) :
    (add_watch_loop wm l d).2.2 = Option.some () := by
  induction l generalizing wm d with
  | nil => simp at h
  | cons v rest ih =>
      cases v with
      | nonstr tag => rfl
      | str s =>
          simp only [List.any_cons, PyVal.isNonstr, Bool.false_or] at h
          simp only [add_watch_loop]
          exact ih _ _ h

/-- The watch-adding loop only appends to the set of active watches. -/
theorem add_watch_loop_watches (l : List PyVal) (wm : WatchManagerState)
    (d : Option (List (String × Nat))) :
    ∃ t, (add_watch_loop wm l d).1.watches = wm.watches ++ t := by
  induction l generalizing wm d with
  | nil => exact ⟨[], by simp [add_watch_loop]⟩
  | cons v rest ih =>
      cases v with
      | nonstr tag => exact ⟨[], by simp [add_watch_loop]⟩
      | str s =>
          obtain ⟨t, ht⟩ := ih (wm.add_watch (real_absolute_path s)).1
            (Option.some (wm.add_watch (real_absolute_path s)).2)
          refine ⟨wm.next_wd :: t, ?_⟩
          simp only [add_watch_loop]
          rw [ht]
          simp [WatchManagerState.add_watch]

/-- Updating a registry binding makes it the one found by lookup. -/
theorem lookup_dictInsert (m : List (String × Rule)) (k : String)
    (v : Rule) : (dictInsert m k v).lookup k = Option.some v := by
  simp [dictInsert, List.lookup]

/-- The fold of `unschedule` with no names only touches the watch
manager: the registry and the notifier set are preserved. -/
theorem unschedule_all_fold_preserves (l : List (String × Rule))
    (obs : InotifyObserver) :
    (l.foldl (fun o kv =>
        { o with wm := o.wm.rm_watch (kv.2.descriptors.map Prod.snd) })
      obs).name_to_rule = obs.name_to_rule ∧
    (l.foldl (fun o kv =>
        { o with wm := o.wm.rm_watch (kv.2.descriptors.map Prod.snd) })
      obs).notifiers = obs.notifiers := by
  induction l generalizing obs with
  | nil => exact ⟨rfl, rfl⟩
  | cons kv rest ih =>
      rw [List.foldl_cons]
      exact ih _

/-- A notifier whose identity differs from the freshly started one is
left unchanged by the start step of `schedule`. -/
theorem mem_map_start_of_fresh (l : List Notifier) (k : Nat)
    (n : Notifier) (hn : n ∈ l) (hid : n.id ≠ k) :
    n ∈ l.map
      (fun m => if m.id = k then { m with running := true } else m) := by
  have hfix :
      (fun m => if m.id = k then { m with running := true } else m) n
        = n := by
    simp [hid]
  have h2 := List.mem_map_of_mem
    (fun m => if m.id = k then { m with running := true } else m) hn
  rwa [hfix] at h2

/-- Removing a set of descriptors deactivates each of its members. -/
theorem rm_watch_not_mem_of_mem (wm : WatchManagerState) (wds : List Nat)
    (w : Nat) (h : w ∈ wds) : w ∉ (wm.rm_watch wds).watches := by
  intro hmem
  rw [WatchManagerState.rm_watch] at hmem
  have h2 := List.of_mem_filter hmem
  simp at h2
  exact h2 h

/-- Removing descriptors never activates a descriptor. -/
theorem rm_watch_not_mem_of_not_mem (wm : WatchManagerState)
    (wds : List Nat) (w : Nat) (h : w ∉ wm.watches) :
    w ∉ (wm.rm_watch wds).watches := by
  intro hmem
  rw [WatchManagerState.rm_watch] at hmem
  exact h (List.mem_of_mem_filter hmem)

/-- The loop of `unschedule` with names never touches the registry or
the notifier set, whatever the outcome. -/
theorem unschedule_loop_preserves (names : List String) :
    ∀ obs : InotifyObserver,
      (unschedule_loop obs names).1.name_to_rule = obs.name_to_rule ∧
      (unschedule_loop obs names).1.notifiers = obs.notifiers := by
  induction names with
  | nil =>
      intro obs
      exact ⟨rfl, rfl⟩
  | cons n rest ih =>
      intro obs
      cases hl : obs.name_to_rule.lookup n with
      | none => simp [unschedule_loop, hl]
      | some rule =>
          simp only [unschedule_loop, hl]
          exact ih _

/-- The loop of `unschedule` raises nothing when every requested name is
in the registry. -/
theorem unschedule_loop_err_none (names : List String) :
    ∀ obs : InotifyObserver,
      (∀ n ∈ names, (obs.name_to_rule.lookup n).isSome = true) →
      (unschedule_loop obs names).2 = Option.none := by
  induction names with
  | nil =>
      intro obs _
      rfl
  | cons n rest ih =>
      intro obs hall
      have hn := hall n (List.mem_cons_self n rest)
      cases hl : obs.name_to_rule.lookup n with
      | none =>
          rw [hl] at hn
          simp at hn
      | some rule =>
          simp only [unschedule_loop, hl]
          exact ih _ (fun n2 h2 => hall n2 (List.mem_cons_of_mem n h2))

/-- The loop of `unschedule` raises `KeyError` whenever some requested
name is missing from the registry. -/
theorem unschedule_loop_keyError (names : List String) :
    ∀ (obs : InotifyObserver) (m : String), m ∈ names →
      obs.name_to_rule.lookup m = Option.none →
      (unschedule_loop obs names).2 = Option.some PyError.keyError := by
  induction names with
  | nil =>
      intro obs m hm _
      simp at hm
  | cons n rest ih =>
      intro obs m hm hmiss
      cases hl : obs.name_to_rule.lookup n with
      | none => simp [unschedule_loop, hl]
      | some rule =>
          simp only [unschedule_loop, hl]
          rcases List.mem_cons.mp hm with heq | hrest
          · subst heq
            rw [hl] at hmiss
            exact Option.noConfusion hmiss
          · exact ih _ m hrest hmiss

/-- A descriptor already inactive stays inactive through the loop of
`unschedule`. -/
theorem unschedule_loop_watch_mono (names : List String) :
    ∀ (obs : InotifyObserver) (w : Nat), w ∉ obs.wm.watches →
      w ∉ (unschedule_loop obs names).1.wm.watches := by
  induction names with
  | nil =>
      intro obs w hw
      exact hw
  | cons n rest ih =>
      intro obs w hw
      cases hl : obs.name_to_rule.lookup n with
      | none => simpa [unschedule_loop, hl] using hw
      | some rule =>
          simp only [unschedule_loop, hl]
          exact ih _ w (rm_watch_not_mem_of_not_mem _ _ w hw)

/-- When every requested name is registered, the loop of `unschedule`
deactivates every descriptor of every requested rule. -/
theorem unschedule_loop_removes (names : List String) :
    ∀ (obs : InotifyObserver) (n : String) (rule : Rule) (w : Nat),
      (∀ n2 ∈ names, (obs.name_to_rule.lookup n2).isSome = true) →
      n ∈ names → obs.name_to_rule.lookup n = Option.some rule →
      w ∈ rule.descriptors.map Prod.snd →
      w ∉ (unschedule_loop obs names).1.wm.watches := by
  induction names with
  | nil =>
      intro obs n rule w _ hn _ _
      simp at hn
  | cons n0 rest ih =>
      intro obs n rule w hall hn hl hw
      have h0 := hall n0 (List.mem_cons_self n0 rest)
      cases hl0 : obs.name_to_rule.lookup n0 with
      | none =>
          rw [hl0] at h0
          simp at h0
      | some rule0 =>
          simp only [unschedule_loop, hl0]
          rcases List.mem_cons.mp hn with heq | hrest
          · subst heq
            rw [hl0] at hl
            have hrr := Option.some.inj hl
            subst hrr
            exact unschedule_loop_watch_mono rest _ w
              (rm_watch_not_mem_of_mem _ _ w hw)
          · exact ih _ n rule w
              (fun n2 h2 => hall n2 (List.mem_cons_of_mem n0 h2))
              hrest hl hw

/-- A descriptor already inactive stays inactive through the fold of
`unschedule` with no names. -/
theorem fold_rm_watch_mono (l : List (String × Rule)) :
    ∀ (obs : InotifyObserver) (w : Nat), w ∉ obs.wm.watches →
      w ∉ (l.foldl (fun o kv =>
          { o with wm := o.wm.rm_watch (kv.2.descriptors.map Prod.snd) })
        obs).wm.watches := by
  induction l with
  | nil =>
      intro obs w hw
      exact hw
  | cons kv rest ih =>
      intro obs w hw
      rw [List.foldl_cons]
      exact ih _ w (rm_watch_not_mem_of_not_mem _ _ w hw)

/-- The fold of `unschedule` with no names deactivates every descriptor
of every rule it folds over. -/
theorem fold_rm_watch_removes (l : List (String × Rule)) :
    ∀ (obs : InotifyObserver) (kv : String × Rule) (w : Nat), kv ∈ l →
      w ∈ kv.2.descriptors.map Prod.snd →
      w ∉ (l.foldl (fun o kv2 =>
          { o with wm := o.wm.rm_watch (kv2.2.descriptors.map Prod.snd) })
        obs).wm.watches := by
  induction l with
  | nil =>
      intro obs kv w hkv _
      simp at hkv
  | cons kv0 rest ih =>
      intro obs kv w hkv hw
      rw [List.foldl_cons]
      rcases List.mem_cons.mp hkv with heq | hrest
      · subst heq
        exact fold_rm_watch_mono rest _ w
          (rm_watch_not_mem_of_mem _ _ w hw)
      · exact ih _ kv w hrest hw

/-- On a non-empty name list `unschedule` is its loop. -/
theorem unschedule_cons (obs : InotifyObserver) (n : String)
    (rest : List String) :
    InotifyObserver.unschedule obs (n :: rest)
      = unschedule_loop obs (n :: rest) := rfl

/-- C1: on a recursive rule, a directory-level move notification
dispatches the synthesized per-descendant Moved events first — exactly
one per previously-known descendant, with the old directory prefix
rewritten to the new one inside `get_moved_events_for` — and the single
top-level directory Moved event strictly after all of them. -/
theorem dir_move_recursive_expands_then_emits_dir
    (descendants : List (String × Bool)) (ev : RawEvent)
    (hk : ev.kind = RawKind.in_moved_to) (hd : ev.dir = true) :
    dispatch_event true descendants ev =
      get_moved_events_for (absolute_path ev.src_pathname)
          (absolute_path ev.pathname) true descendants
        ++ [FileSystemEvent.dirMoved (absolute_path ev.src_pathname)
              (absolute_path ev.pathname)] ∧
    (get_moved_events_for (absolute_path ev.src_pathname)
        (absolute_path ev.pathname) true descendants).length
      = descendants.length := by
  constructor
  · simp [dispatch_event, hk, process_IN_MOVED_TO, hd]
  · simp [get_moved_events_for]

/-- Witness for C1 at a concrete directory move of `/d` to `/d2` with two
previously-known descendants. -/
theorem dir_move_recursive_expands_then_emits_dir_witness :
    (RawEvent.mk RawKind.in_moved_to "/d2" "/d" true).kind
        = RawKind.in_moved_to ∧
    (RawEvent.mk RawKind.in_moved_to "/d2" "/d" true).dir = true ∧
    (dispatch_event true [("/d/a", false), ("/d/b/c", false)]
        (RawEvent.mk RawKind.in_moved_to "/d2" "/d" true) =
      get_moved_events_for "/d" "/d2" true
          [("/d/a", false), ("/d/b/c", false)]
        ++ [FileSystemEvent.dirMoved "/d" "/d2"] ∧
    (get_moved_events_for "/d" "/d2" true
        [("/d/a", false), ("/d/b/c", false)]).length = 2) :=
  ⟨rfl, rfl,
    dir_move_recursive_expands_then_emits_dir
      [("/d/a", false), ("/d/b/c", false)]
      (RawEvent.mk RawKind.in_moved_to "/d2" "/d" true) rfl rfl⟩

/-- C2 counterexample: a MoveFrom notification (matched or not) at a
concrete path dispatches zero events — the source defines no
`process_IN_MOVED_FROM`, so it falls to the no-op default — refuting
that a Deleted event is dispatched and that zero events are impossible. -/
theorem moved_from_drop_counterexample :
    dispatch_event false []
      (RawEvent.mk RawKind.in_moved_from "/w/old" "/w/old" false) = [] :=
  rfl

/-- C2 amended: a MoveFrom notification is silently dropped by the
translator — zero events are dispatched for it, in particular no Deleted
event at the source path. -/
theorem moved_from_dispatches_nothing (r : Bool)
    (ds : List (String × Bool)) (ev : RawEvent)
    (hk : ev.kind = RawKind.in_moved_from) :
    dispatch_event r ds ev = [] := by
  simp [dispatch_event, hk]

/-- Witness for the amended C2 at a concrete MoveFrom record. -/
theorem moved_from_dispatches_nothing_witness :
    (RawEvent.mk RawKind.in_moved_from "/w/x" "/w/x" false).kind
        = RawKind.in_moved_from ∧
    dispatch_event true []
      (RawEvent.mk RawKind.in_moved_from "/w/x" "/w/x" false) = [] :=
  ⟨rfl,
    moved_from_dispatches_nothing true []
      (RawEvent.mk RawKind.in_moved_from "/w/x" "/w/x" false) rfl⟩

/-- C8: a move notification on a non-recursive rule, and a file-level
move notification on any rule, dispatch exactly one Moved event and
perform no descendant expansion. -/
theorem single_moved_event (r : Bool) (ds : List (String × Bool))
    (ev : RawEvent) (hk : ev.kind = RawKind.in_moved_to)
    (h : ev.dir = false ∨ r = false) :
    dispatch_event r ds ev =
      [if ev.dir then
          FileSystemEvent.dirMoved (absolute_path ev.src_pathname)
            (absolute_path ev.pathname)
        else
          FileSystemEvent.fileMoved (absolute_path ev.src_pathname)
            (absolute_path ev.pathname)] := by
  rcases h with h | h
  · simp [dispatch_event, hk, process_IN_MOVED_TO, h]
  · subst h
    cases hdir : ev.dir <;>
      simp [dispatch_event, hk, process_IN_MOVED_TO, hdir]

/-- Witness for C8 at a concrete file-level move on a recursive rule. -/
theorem single_moved_event_witness :
    ((RawEvent.mk RawKind.in_moved_to "/w2/a" "/w/a" false).kind
        = RawKind.in_moved_to ∧
     ((RawEvent.mk RawKind.in_moved_to "/w2/a" "/w/a" false).dir = false ∨
      true = false)) ∧
    dispatch_event true []
        (RawEvent.mk RawKind.in_moved_to "/w2/a" "/w/a" false) =
      [FileSystemEvent.fileMoved "/w/a" "/w2/a"] :=
  ⟨⟨rfl, Or.inl rfl⟩,
    single_moved_event true []
      (RawEvent.mk RawKind.in_moved_to "/w2/a" "/w/a" false) rfl
      (Or.inl rfl)⟩

/-- C9: an attribute-change notification translates identically to a
write-close notification on the same record — both dispatch exactly one
Modified event at the notification's path, with directory-ness taken
from the record's directory flag. -/
theorem attrib_close_write_coalesced (r : Bool)
    (ds : List (String × Bool)) (p sp : String) (d : Bool) :
    dispatch_event r ds (RawEvent.mk RawKind.in_attrib p sp d) =
      dispatch_event r ds (RawEvent.mk RawKind.in_close_write p sp d) ∧
    dispatch_event r ds (RawEvent.mk RawKind.in_attrib p sp d) =
      [if d then FileSystemEvent.dirModified (absolute_path p)
       else FileSystemEvent.fileModified (absolute_path p)] := by
  refine ⟨rfl, ?_⟩
  cases d <;>
    simp [dispatch_event, process_IN_ATTRIB, process_IN_CLOSE_WRITE]

/-- C3 counterexample: scheduling with `paths = ["/a", 42]` on a fresh
observer fails with `TypeError`, yet a kernel watch for `/a` was already
created and the notifier was already added to the notifier set — the
failure is not prior to every kernel watch and the observer state is not
left unchanged. -/
theorem schedule_badpath_mutates_counterexample :
    (InotifyObserver.schedule InotifyObserver.init "r" 0
        (PathsArg.list [PyVal.str "/a", PyVal.nonstr 0]) false).2
      = Option.some PyError.typeError ∧
    (InotifyObserver.schedule InotifyObserver.init "r" 0
        (PathsArg.list [PyVal.str "/a", PyVal.nonstr 0]) false).1.wm.watches
      = [0] ∧
    (InotifyObserver.schedule InotifyObserver.init "r" 0
        (PathsArg.list [PyVal.str "/a", PyVal.nonstr 0]) false).1.notifiers
      ≠ [] := by
  decide

/-- C3 amended: an empty (falsy) `paths` is rejected with `ValueError`
before any mutation, and a `paths` list containing a non-string value is
rejected with `TypeError` with the registry left unchanged — but in the
latter case the notifier set has already been extended and watches for
paths preceding the offending value have already been created. -/
theorem schedule_invalid_paths_amended (obs : InotifyObserver)
    (name : String) (eh : Nat) (r : Bool) (pempty : PathsArg)
    (l : List PyVal) (hf : pempty.isFalsy = true)
    (hl : l.any PyVal.isNonstr = true) :
    InotifyObserver.schedule obs name eh pempty r
        = (obs, Option.some PyError.valueError) ∧
    (InotifyObserver.schedule obs name eh (PathsArg.list l) r).2
        = Option.some PyError.typeError ∧
    (InotifyObserver.schedule obs name eh (PathsArg.list l) r).1.name_to_rule
        = obs.name_to_rule := by
  have hfl : (PathsArg.list l).isFalsy = false := by
    cases l with
    | nil => simp at hl
    | cons v rest => simp [PathsArg.isFalsy]
  have herr := add_watch_loop_err_of_nonstr l obs.wm Option.none hl
  refine ⟨?_, ?_, ?_⟩
  · simp [InotifyObserver.schedule, hf]
  · simp [InotifyObserver.schedule, hfl, PathsArg.toList, herr]
  · simp [InotifyObserver.schedule, hfl, PathsArg.toList, herr]

/-- Witness for the amended C3: falsy `paths` given as the empty list,
and a list whose second entry is the non-string `42`. -/
theorem schedule_invalid_paths_amended_witness :
    ((PathsArg.list []).isFalsy = true ∧
     ([PyVal.str "/a", PyVal.nonstr 0].any PyVal.isNonstr = true)) ∧
    (InotifyObserver.schedule InotifyObserver.init "r" 0
        (PathsArg.list []) false
      = (InotifyObserver.init, Option.some PyError.valueError) ∧
    (InotifyObserver.schedule InotifyObserver.init "r" 0
        (PathsArg.list [PyVal.str "/a", PyVal.nonstr 0]) false).2
      = Option.some PyError.typeError ∧
    (InotifyObserver.schedule InotifyObserver.init "r" 0
        (PathsArg.list [PyVal.str "/a", PyVal.nonstr 0]) false
        ).1.name_to_rule
      = InotifyObserver.init.name_to_rule) :=
  ⟨⟨rfl, rfl⟩,
    schedule_invalid_paths_amended InotifyObserver.init "r" 0 false
      (PathsArg.list []) [PyVal.str "/a", PyVal.nonstr 0] rfl rfl⟩

/-- C6: scheduling two paths on a fresh observer creates a kernel watch
for each of them, but the registry entry stores only the descriptors of
the last path — the `descriptors` variable is rebound on every loop
iteration, so earlier paths' handles are not collected. The claim (and
the spec's "collects the resulting watch handles") describes the clear
intent; the stored handle set covering only the last path is the slip. -/
theorem schedule_multi_path_last_descriptors :
    (InotifyObserver.schedule InotifyObserver.init "r" 0
        (PathsArg.list [PyVal.str "/a", PyVal.str "/b"]) false).2
      = Option.none ∧
    (InotifyObserver.schedule InotifyObserver.init "r" 0
        (PathsArg.list [PyVal.str "/a", PyVal.str "/b"]) false).1.wm.watches
      = [0, 1] ∧
    (InotifyObserver.schedule InotifyObserver.init "r" 0
        (PathsArg.list [PyVal.str "/a", PyVal.str "/b"]) false
        ).1.name_to_rule.lookup "r"
      = Option.some
          { name := "r", notifier := 0, descriptors := [("/b", 1)] } := by
  decide

/-- C10: scheduling with a lone non-empty string as `paths` is the same
call as scheduling with the one-element list containing that string. -/
theorem schedule_string_paths_equiv (obs : InotifyObserver)
    (name : String) (eh : Nat) (s : String) (r : Bool) (hs : s ≠ "") :
    InotifyObserver.schedule obs name eh (PathsArg.str s) r =
      InotifyObserver.schedule obs name eh
        (PathsArg.list [PyVal.str s]) r := by
  have h1 : (PathsArg.str s).isFalsy = false := by
    simp [PathsArg.isFalsy, hs]
  have h2 : (PathsArg.list [PyVal.str s]).isFalsy = false := by
    simp [PathsArg.isFalsy]
  simp [InotifyObserver.schedule, h1, h2, PathsArg.toList]

/-- Witness for C10 at the concrete string `/w`. -/
theorem schedule_string_paths_equiv_witness :
    ("/w" : String) ≠ "" ∧
    InotifyObserver.schedule InotifyObserver.init "r" 0
        (PathsArg.str "/w") true =
      InotifyObserver.schedule InotifyObserver.init "r" 0
        (PathsArg.list [PyVal.str "/w"]) true :=
  ⟨by decide,
    schedule_string_paths_equiv InotifyObserver.init "r" 0 "/w" true
      (by decide)⟩

/-- C4 counterexample: after scheduling rule `r`, `unschedule("r")`
completes without error, yet the registry still contains `r` and the
rule's notifier is still running — the registry entry is not released
and the worker is not signalled to stop. -/
theorem unschedule_keeps_registry_counterexample :
    (InotifyObserver.unschedule sampleObs ["r"]).2 = Option.none ∧
    ((InotifyObserver.unschedule sampleObs ["r"]).1.name_to_rule.lookup
        "r").isSome = true ∧
    (InotifyObserver.unschedule sampleObs ["r"]).1.notifiers.map
        Notifier.running = [true] := by
  decide

/-- C4 amended: when every requested name is registered, `unschedule`
completes without error and removes the kernel watch descriptors of
every requested rule — every such rule's watch descriptors are inactive
afterwards — but it neither removes any registry entry nor signals any
worker to stop; with no names given it does the same for every
registered rule; and whenever some requested name is absent from the
registry it fails with `KeyError` (the spec's `NotFound`). -/
theorem unschedule_amended (obs : InotifyObserver)
    (names names2 : List String) (m : String)
    (hall : ∀ n ∈ names, (obs.name_to_rule.lookup n).isSome = true)
    (hm : obs.name_to_rule.lookup m = Option.none) (hm2 : m ∈ names2) :
    (InotifyObserver.unschedule obs names).2 = Option.none ∧
    (InotifyObserver.unschedule obs names).1.name_to_rule
        = obs.name_to_rule ∧
    (InotifyObserver.unschedule obs names).1.notifiers = obs.notifiers ∧
    (∀ n ∈ names, ∀ rule : Rule,
        obs.name_to_rule.lookup n = Option.some rule →
        ∀ w ∈ rule.descriptors.map Prod.snd,
          w ∉ (InotifyObserver.unschedule obs names).1.wm.watches) ∧
    (∀ kv ∈ obs.name_to_rule, ∀ w ∈ kv.2.descriptors.map Prod.snd,
        w ∉ (InotifyObserver.unschedule obs []).1.wm.watches) ∧
    (InotifyObserver.unschedule obs []).1.name_to_rule
        = obs.name_to_rule ∧
    (InotifyObserver.unschedule obs []).1.notifiers = obs.notifiers ∧
    (InotifyObserver.unschedule obs names2).2
        = Option.some PyError.keyError := by
  have hfold := unschedule_all_fold_preserves obs.name_to_rule obs
  refine ⟨?_, ?_, ?_, ?_, ?_, ?_, ?_, ?_⟩
  · cases names with
    | nil => rfl
    | cons n0 rest =>
        rw [unschedule_cons]
        exact unschedule_loop_err_none (n0 :: rest) obs hall
  · cases names with
    | nil => exact hfold.1
    | cons n0 rest =>
        rw [unschedule_cons]
        exact (unschedule_loop_preserves (n0 :: rest) obs).1
  · cases names with
    | nil => exact hfold.2
    | cons n0 rest =>
        rw [unschedule_cons]
        exact (unschedule_loop_preserves (n0 :: rest) obs).2
  · intro n hn rule hrule w hw
    cases names with
    | nil => simp at hn
    | cons n0 rest =>
        rw [unschedule_cons]
        exact unschedule_loop_removes (n0 :: rest) obs n rule w hall
          hn hrule hw
  · intro kv hkv w hw
    exact fold_rm_watch_removes obs.name_to_rule obs kv w hkv hw
  · exact hfold.1
  · exact hfold.2
  · cases names2 with
    | nil => simp at hm2
    | cons a l =>
        rw [unschedule_cons]
        exact unschedule_loop_keyError (a :: l) obs m hm2 hm

/-- Witness for the amended C4 on the sample observer: the name list
`["r"]` is fully registered, the name list `["x"]` contains the
unregistered `x`. -/
theorem unschedule_amended_witness :
    ((∀ n ∈ (["r"] : List String),
        (sampleObs.name_to_rule.lookup n).isSome = true) ∧
     sampleObs.name_to_rule.lookup "x" = Option.none ∧
     ("x" : String) ∈ (["x"] : List String)) ∧
    ((InotifyObserver.unschedule sampleObs ["r"]).2 = Option.none ∧
    (InotifyObserver.unschedule sampleObs ["r"]).1.name_to_rule
        = sampleObs.name_to_rule ∧
    (InotifyObserver.unschedule sampleObs ["r"]).1.notifiers
        = sampleObs.notifiers ∧
    (∀ n ∈ (["r"] : List String), ∀ rule : Rule,
        sampleObs.name_to_rule.lookup n = Option.some rule →
        ∀ w ∈ rule.descriptors.map Prod.snd,
          w ∉ (InotifyObserver.unschedule sampleObs ["r"]).1.wm.watches) ∧
    (∀ kv ∈ sampleObs.name_to_rule,
        ∀ w ∈ kv.2.descriptors.map Prod.snd,
          w ∉ (InotifyObserver.unschedule sampleObs []).1.wm.watches) ∧
    (InotifyObserver.unschedule sampleObs []).1.name_to_rule
        = sampleObs.name_to_rule ∧
    (InotifyObserver.unschedule sampleObs []).1.notifiers
        = sampleObs.notifiers ∧
    (InotifyObserver.unschedule sampleObs ["x"]).2
        = Option.some PyError.keyError) :=
  ⟨⟨by decide, by decide, by decide⟩,
    unschedule_amended sampleObs ["r"] ["x"] "x" (by decide) (by decide)
      (by decide)⟩

/-- C5 counterexample: with rule `r` registered, `stop()` leaves the
registry non-empty and the kernel watch still present, and its result
differs from that of `unschedule()` with no arguments — refuting both
the claimed equivalence and the claimed empty registry. -/
theorem stop_not_unschedule_counterexample :
    (InotifyObserver.stop sampleObs).name_to_rule ≠ [] ∧
    (InotifyObserver.stop sampleObs).wm.watches = [0] ∧
    InotifyObserver.stop sampleObs
      ≠ (InotifyObserver.unschedule sampleObs []).1 := by
  decide

/-- C5 amended: `stop()` signals every notifier (hence every registered
rule's worker) to stop, but releases no watch handles and leaves the
registry untouched — it is not equivalent to `unschedule()` with no
arguments, which removes watch handles but stops no worker; calling
`stop()` twice is error-free and idempotent, and the registry after each
call equals the registry before, not the empty registry. -/
theorem stop_amended (obs : InotifyObserver) :
    (InotifyObserver.stop obs).name_to_rule = obs.name_to_rule ∧
    (InotifyObserver.stop obs).wm = obs.wm ∧
    ((InotifyObserver.stop obs).notifiers.all (fun n => !n.running))
        = true ∧
    InotifyObserver.stop (InotifyObserver.stop obs)
        = InotifyObserver.stop obs := by
  refine ⟨rfl, rfl, ?_, ?_⟩
  · simp [InotifyObserver.stop, InotifyObserver.on_stopping,
      List.all_map, Function.comp]
  · have hmap : ∀ l : List Notifier,
        (l.map (fun n => { n with running := false })).map
            (fun n => { n with running := false })
          = l.map (fun n => { n with running := false }) := by
      intro l
      rw [List.map_map]
      rfl
    simp [InotifyObserver.stop, InotifyObserver.on_stopping, hmap]

/-- C7: successfully re-scheduling a name already present in the
registry overwrites the registry entry with a new rule (bound to the
fresh notifier, so distinct from the old entry), while every prior
notifier stays in the notifier set with its running state untouched and
every prior kernel watch stays active — the prior rule's resources are
leaked, not released. The identity hypotheses are the freshness
invariants of the notifier counter. -/
theorem reschedule_overwrites_leaks (obs : InotifyObserver)
    (name : String) (eh : Nat) (paths : PathsArg) (r : Bool)
    (oldRule : Rule)
    (hids : ∀ n ∈ obs.notifiers, n.id < obs.next_notifier)
    (hold : obs.name_to_rule.lookup name = Option.some oldRule)
    (holdid : oldRule.notifier < obs.next_notifier)
    (hsucc : (InotifyObserver.schedule obs name eh paths r).2
        = Option.none) :
    ((InotifyObserver.schedule obs name eh paths r).1.name_to_rule.lookup
        name).isSome = true ∧
    (InotifyObserver.schedule obs name eh paths r).1.name_to_rule.lookup
        name ≠ Option.some oldRule ∧
    (∀ n ∈ obs.notifiers,
        n ∈ (InotifyObserver.schedule obs name eh paths r).1.notifiers) ∧
    (∀ w ∈ obs.wm.watches,
        w ∈ (InotifyObserver.schedule obs name eh paths r).1.wm.watches)
    := by
  by_cases hf : paths.isFalsy = true
  · simp [InotifyObserver.schedule, hf] at hsucc
  · have hf2 : paths.isFalsy = false := by
      cases hpf : paths.isFalsy
      · rfl
      · exact absurd hpf hf
    by_cases he :
        (add_watch_loop obs.wm paths.toList Option.none).2.2.isSome = true
    · simp [InotifyObserver.schedule, hf2, he] at hsucc
    · have he2 :
          (add_watch_loop obs.wm paths.toList Option.none).2.2.isSome
            = false := by
        cases hpe :
            (add_watch_loop obs.wm paths.toList Option.none).2.2.isSome
        · rfl
        · exact absurd hpe he
      refine ⟨?_, ?_, ?_, ?_⟩
      · simp [InotifyObserver.schedule, hf2, he2, lookup_dictInsert]
      · simp only [InotifyObserver.schedule, hf2, Bool.false_eq_true,
          if_false, he2]
        rw [lookup_dictInsert]
        intro hcontra
        have heq := Option.some.inj hcontra
        have hnot := congrArg Rule.notifier heq
        simp at hnot
        omega
      · intro n hn
        simp only [InotifyObserver.schedule, hf2, Bool.false_eq_true,
          if_false, he2]
        exact mem_map_start_of_fresh (obs.notifiers ++ [_]) _ n
          (List.mem_append_left _ hn) (Nat.ne_of_lt (hids n hn))
      · intro w hw
        simp only [InotifyObserver.schedule, hf2, Bool.false_eq_true,
          if_false, he2]
        obtain ⟨t, ht⟩ :=
          add_watch_loop_watches paths.toList obs.wm Option.none
        rw [ht]
        exact List.mem_append_left _ hw

/-- Witness for C7: re-scheduling the existing name `r` on the sample
observer with a new path succeeds and exhibits the overwrite-and-leak
behavior. -/
theorem reschedule_overwrites_leaks_witness :
    ((∀ n ∈ sampleObs.notifiers, n.id < sampleObs.next_notifier) ∧
     sampleObs.name_to_rule.lookup "r"
        = Option.some
            { name := "r", notifier := 0, descriptors := [("/a", 0)] } ∧
     (Rule.mk "r" 0 [("/a", 0)]).notifier < sampleObs.next_notifier ∧
     (InotifyObserver.schedule sampleObs "r" 1
        (PathsArg.str "/b") false).2 = Option.none) ∧
    (((InotifyObserver.schedule sampleObs "r" 1 (PathsArg.str "/b")
        false).1.name_to_rule.lookup "r").isSome = true ∧
    (InotifyObserver.schedule sampleObs "r" 1 (PathsArg.str "/b")
        false).1.name_to_rule.lookup "r"
      ≠ Option.some
          { name := "r", notifier := 0, descriptors := [("/a", 0)] } ∧
    (∀ n ∈ sampleObs.notifiers,
        n ∈ (InotifyObserver.schedule sampleObs "r" 1 (PathsArg.str "/b")
          false).1.notifiers) ∧
    (∀ w ∈ sampleObs.wm.watches,
        w ∈ (InotifyObserver.schedule sampleObs "r" 1 (PathsArg.str "/b")
          false).1.wm.watches)) :=
  ⟨⟨by decide, by decide, by decide, by decide⟩,
    reschedule_overwrites_leaks sampleObs "r" 1 (PathsArg.str "/b") false
      { name := "r", notifier := 0, descriptors := [("/a", 0)] }
      (by decide) (by decide) (by decide) (by decide)⟩

end Watchdog
